import Mathlib

/-!
Shallow embedding of src/interface/interface.c (interface lifecycle core).

The file models the four operations of the core — intf_Create, the
intf-add variable callback AddIntfCallback, intf_GetPlaylist / pl_Get,
and intf_DestroyAll — as pure state-transition functions over an
explicit LibvlcState.  External collaborators (vlc_custom_create,
config_ChainCreate, module_need, isatty, playlist_Create) are abstract
parameters carried in an Env record, so every theorem quantifies over
their behaviour.  Resource-management calls (module_unneed,
config_ChainDestroy, vlc_object_release, msg_Err, playlist_Create) are
recorded as an event trace so that release-exactly-once properties are
statable.
-/

/-- Observable events emitted by the operations: each constructor stands
for one call into an external collaborator made by interface.c. -/
inductive Event
| chainCreate (chain : String)
| moduleNeed (name : Option String)
| msgErrNoModule (hid : Nat)
| unneed (hid : Nat)
| chainDestroy (hid : Nat)
| release (hid : Nat)
| msgErrInitFailed (name : String)
| playlistCreate
deriving DecidableEq, Repr

/-- One registered interface handle (intf_thread_t): identity, the
resolved module instance (p_module), the configuration chain (p_cfg)
and the choices installed on its intf-add variable. -/
structure Handle where
  hid : Nat
  pmodule : Nat
  cfg : List String
  choices : List (String × String)
deriving DecidableEq, Repr

/-- The parts of libvlc_priv relevant here: the singly linked list of
interfaces (p_intf, head first), the playlist pointer, and a fresh-id
counter standing for the allocator. -/
structure LibvlcState where
  intfList : List Handle
  playlist : Option Nat
  nextId : Nat
deriving DecidableEq, Repr

/-- Environment: compile-time platform switches, the isatty(0) probe,
the outcome of vlc_custom_create, and the external chain parser and
module resolver. -/
structure Env where
  isWin32 : Bool
  hasIsatty : Bool
  isatty0 : Bool
  allocOk : Bool
  chainParse : String → Option String × List String
  resolve : Option String → Option Nat

/-- VLC error codes used by this file. -/
inductive VlcErr
| ENOMEM
| EGENERIC
deriving DecidableEq, Repr

/-- Numeric value of a result, as returned through the C int interface
(VLC_SUCCESS = 0, VLC_EGENERIC = -1, VLC_ENOMEM = -2). -/
def vlcCode : Except VlcErr Unit → Int
| Except.ok _ => 0
| Except.error VlcErr.EGENERIC => -1
| Except.error VlcErr.ENOMEM => -2

/-- Whether the console choice block runs.  In the source the guard
`if( isatty( 0 ) )` exists only under
`#if !defined(_WIN32) && defined(HAVE_ISATTY)`; on _WIN32 or without
HAVE_ISATTY the braced block is unconditional. -/
def consoleChoiceAdded (env : Env) : Bool :=
  if !env.isWin32 && env.hasIsatty then env.isatty0 else true

/-- The choices added to the intf-add variable by intf_Create, in the
order of the var_Change VLC_VAR_ADDCHOICE calls. -/
def intfChoices (env : Env) : List (String × String) :=
  (if consoleChoiceAdded env then [(("rc,none"), ("Console"))] else []) ++
  [(("telnet,none"), ("Telnet")),
   (("http,none"), ("Web")),
   (("logger,none"), ("Debug logging")),
   (("gestures,none"), ("Mouse Gestures"))]

/-- The cleanup performed at the `error:` label of intf_Create:
module_unneed only when p_module is non-null, then config_ChainDestroy
and vlc_object_release. -/
def errorCleanup (hid : Nat) (pmodule : Option Nat) : List Event :=
  (if pmodule.isSome then [Event.unneed hid] else []) ++
  [Event.chainDestroy hid, Event.release hid]

/-- intf_Create: allocate the handle, install the intf-add variable and
its choices, parse the chain, resolve the module; on failure go to the
error label (handle and cfg released, registry untouched); on success
prepend the handle to p_intf under the lock. -/
def intf_Create (env : Env) (s : LibvlcState) (chain : String) :
    Except VlcErr Unit × LibvlcState × List Event :=
  if env.allocOk = false then (Except.error VlcErr.ENOMEM, s, [])
  else
    let hid := s.nextId
    let parsed := env.chainParse chain
    match env.resolve parsed.fst with
    | none =>
        (Except.error VlcErr.EGENERIC,
         { s with nextId := s.nextId + 1 },
         [Event.chainCreate chain, Event.moduleNeed parsed.fst,
          Event.msgErrNoModule hid] ++ errorCleanup hid none)
    | some m =>
        (Except.ok (),
         { s with nextId := s.nextId + 1,
                  intfList :=
                    { hid := hid, pmodule := m, cfg := parsed.snd,
                      choices := intfChoices env } :: s.intfList },
         [Event.chainCreate chain, Event.moduleNeed parsed.fst])

/-- The handle that a successful intf_Create with allocator counter hid
registers (derived description used by the registry theorems). -/
def mkHandle (env : Env) (hid : Nat) (chain : String) : Handle :=
  { hid := hid,
    pmodule := (env.resolve (env.chainParse chain).fst).getD 0,
    cfg := (env.chainParse chain).snd,
    choices := intfChoices env }

/-- Handles registered by a sequence of successful creates, in creation
order, with ids hid, hid+1, ... -/
def mkHandles (env : Env) (hid : Nat) : List String → List Handle
| [] => []
| c :: cs => mkHandle env hid c :: mkHandles env (hid + 1) cs

/-- Run intf_Create sequentially on each chain of the list, keeping only
the final state. -/
def createMany (env : Env) (s : LibvlcState) : List String → LibvlcState
| [] => s
| c :: cs => createMany env (intf_Create env s c).snd.fst cs

/-- The cleanup loop of intf_DestroyAll: for each handle in traversal
order, module_unneed, config_ChainDestroy, vlc_object_release. -/
def destroyLoop : List Handle → List Event
| [] => []
| h :: t =>
    Event.unneed h.hid :: Event.chainDestroy h.hid ::
    Event.release h.hid :: destroyLoop t

/-- intf_DestroyAll: snapshot p_intf under the lock (resetting it to
NULL only when NDEBUG is not defined), then run the cleanup loop on the
snapshot outside the lock. -/
def intf_DestroyAll (ndebugDefined : Bool) (s : LibvlcState) :
    LibvlcState × List Event :=
  let snapshot := s.intfList
  let s1 := if ndebugDefined then s else { s with intfList := [] }
  (s1, destroyLoop snapshot)

/-- intf_GetPlaylist: under the lock, return the stored playlist, or
call playlist_Create and store its result (even when that result is
null).  The ctor argument is the value the external playlist
constructor would return if invoked by this call. -/
def intf_GetPlaylist (ctor : Option Nat) (s : LibvlcState) :
    Option Nat × LibvlcState × List Event :=
  match s.playlist with
  | some pl => (some pl, s, [])
  | none => (ctor, { s with playlist := ctor }, [Event.playlistCreate])

/-- Run intf_GetPlaylist sequentially, one call per entry of ctors,
collecting the returned references, the final state and the trace.
Each list entry is the value the external constructor would return if
invoked by the corresponding call. -/
def getPlaylistMany (s : LibvlcState) :
    List (Option Nat) → List (Option Nat) × LibvlcState × List Event
| [] => ([], s, [])
| c :: cs =>
    let r := intf_GetPlaylist c s
    let rest := getPlaylistMany r.snd.fst cs
    (r.fst :: rest.fst, rest.snd.fst, r.snd.snd ++ rest.snd.snd)

/-- Outcome of pl_Get: either a playlist reference or process abort.
There is no error-return constructor, mirroring that pl_Get calls
abort() instead of returning. -/
inductive PlOutcome
| ok (p : Nat)
| aborted
deriving DecidableEq, Repr

/-- pl_Get: fetch via intf_GetPlaylist and abort() when it is null. -/
def pl_Get (ctor : Option Nat) (s : LibvlcState) :
    PlOutcome × LibvlcState × List Event :=
  let r := intf_GetPlaylist ctor s
  match r.fst with
  | none => (PlOutcome.aborted, r.snd.fst, r.snd.snd)
  | some p => (PlOutcome.ok p, r.snd.fst, r.snd.snd)

/-- AddIntfCallback: call intf_Create with the new value of intf-add,
log when it failed, and return intf_Create's status. -/
def AddIntfCallback (env : Env) (s : LibvlcState) (newval : String) :
    Int × LibvlcState × List Event :=
  let r := intf_Create env s newval
  let ret := vlcCode r.fst
  if ret = 0 then (ret, r.snd.fst, r.snd.snd)
  else (ret, r.snd.fst, r.snd.snd ++ [Event.msgErrInitFailed newval])

/-- A fresh libvlc state: empty registry, no playlist. -/
def initialState : LibvlcState :=
  { intfList := [], playlist := none, nextId := 0 }

/-- Registry contents after a sequence of creates from a fresh state. -/
def regAfter (env : Env) (chains : List String) : List Handle :=
  (createMany env initialState chains).intfList

/-- Spec-side canonical table of the Dynamic Selector: key, selector,
label, availability, in the order of §4.3 of the specification. -/
def specChoiceTable (env : Env) : List (String × String × Bool) :=
  [(("rc,none"), ("Console"), consoleChoiceAdded env),
   (("telnet,none"), ("Telnet"), true),
   (("http,none"), ("Web"), true),
   (("logger,none"), ("Debug logging"), true),
   (("gestures,none"), ("Mouse Gestures"), true)]

/-- Spec-side exposed choices: the canonical table filtered by its
availability column. -/
def specExposedChoices (env : Env) : List (String × String) :=
  ((specChoiceTable env).filter (fun e => e.snd.snd)).map
    (fun e => (e.fst, e.snd.fst))

/-- A concrete environment in which every resolution succeeds. -/
def envOk : Env :=
  { isWin32 := false, hasIsatty := true, isatty0 := true, allocOk := true,
    chainParse := fun c => (some c, []),
    resolve := fun _ => some 1 }

/-- A concrete environment in which no module ever resolves. -/
def envNoModule : Env :=
  { envOk with resolve := fun _ => none }

/-- A concrete environment in which handle allocation fails. -/
def envNoAlloc : Env :=
  { envOk with allocOk := false }

/-- A concrete Windows-like environment with non-interactive stdin. -/
def envWinNoTty : Env :=
  { envOk with isWin32 := true, hasIsatty := false, isatty0 := false }

/-- Helper: a successful intf_Create registers exactly mkHandle at the
head and bumps the allocator counter. -/
theorem intf_Create_resolved (env : Env) (s : LibvlcState) (chain : String)
    (m : Nat) (hA : env.allocOk = true)
    (hm : env.resolve (env.chainParse chain).fst = some m) :
    intf_Create env s chain =
      (Except.ok (),
       { s with nextId := s.nextId + 1,
                intfList := mkHandle env s.nextId chain :: s.intfList },
       [Event.chainCreate chain, Event.moduleNeed (env.chainParse chain).fst]) := by
  simp [intf_Create, hA, hm, mkHandle]

/-- Helper: intf_Create never touches the playlist reference. -/
theorem intf_Create_playlist (env : Env) (s : LibvlcState) (chain : String) :
    (intf_Create env s chain).snd.fst.playlist = s.playlist := by
  by_cases hA : env.allocOk = false
  · simp [intf_Create, hA]
  · rcases hm : env.resolve (env.chainParse chain).fst with _ | m <;>
      simp [intf_Create, hA, hm]

/-- Helper: intf_DestroyAll never touches the playlist reference. -/
theorem intf_DestroyAll_playlist (nd : Bool) (s : LibvlcState) :
    (intf_DestroyAll nd s).fst.playlist = s.playlist := by
  cases nd <;> simp [intf_DestroyAll]

/-- C1: if module resolution fails inside create(), create() returns the
resolution error (VLC_EGENERIC), the partially built handle and its
configuration-chain value are released (config_ChainDestroy then
vlc_object_release on the new handle, no module instance to stop), and
the registry is left unchanged — same count and contents. -/
theorem c1_create_resolution_failure (env : Env) (s : LibvlcState)
    (chain : String) (hA : env.allocOk = true)
    (hm : env.resolve (env.chainParse chain).fst = none) :
    (intf_Create env s chain).fst = Except.error VlcErr.EGENERIC ∧
    (intf_Create env s chain).snd.fst.intfList = s.intfList ∧
    (intf_Create env s chain).snd.fst.playlist = s.playlist ∧
    (intf_Create env s chain).snd.snd =
      [Event.chainCreate chain, Event.moduleNeed (env.chainParse chain).fst,
       Event.msgErrNoModule s.nextId, Event.chainDestroy s.nextId,
       Event.release s.nextId] := by
  simp [intf_Create, hA, hm, errorCleanup]

/-- Witness for C1 at the spec scenario create("bogus,none") in an
environment where no module resolves. -/
theorem c1_witness :
    (intf_Create envNoModule initialState ("bogus,none")).fst =
      Except.error VlcErr.EGENERIC ∧
    (intf_Create envNoModule initialState ("bogus,none")).snd.fst.intfList =
      initialState.intfList ∧
    (intf_Create envNoModule initialState ("bogus,none")).snd.fst.playlist =
      initialState.playlist ∧
    (intf_Create envNoModule initialState ("bogus,none")).snd.snd =
      [Event.chainCreate ("bogus,none"),
       Event.moduleNeed (envNoModule.chainParse ("bogus,none")).fst,
       Event.msgErrNoModule initialState.nextId,
       Event.chainDestroy initialState.nextId,
       Event.release initialState.nextId] :=
  c1_create_resolution_failure envNoModule initialState ("bogus,none") rfl rfl

/-- C8: if allocation of the interface handle fails, create() returns
VLC_ENOMEM with the whole state untouched and no external call made —
no registry mutation, no parsing, no module resolution. -/
theorem c8_create_alloc_failure (env : Env) (s : LibvlcState)
    (chain : String) (hA : env.allocOk = false) :
    (intf_Create env s chain).fst = Except.error VlcErr.ENOMEM ∧
    (intf_Create env s chain).snd.fst = s ∧
    (intf_Create env s chain).snd.snd = [] := by
  simp [intf_Create, hA]

/-- Witness for C8 in an environment whose allocator fails. -/
theorem c8_witness :
    (intf_Create envNoAlloc initialState ("rc,none")).fst =
      Except.error VlcErr.ENOMEM ∧
    (intf_Create envNoAlloc initialState ("rc,none")).snd.fst = initialState ∧
    (intf_Create envNoAlloc initialState ("rc,none")).snd.snd = [] :=
  c8_create_alloc_failure envNoAlloc initialState ("rc,none") rfl

/-- C9: whenever the playlist lookup yields no value (in particular when
the external constructor returns no value on first demand), pl_Get
aborts the process; PlOutcome has no error constructor, so there is no
recovery path that returns an error to the caller. -/
theorem c9_plget_aborts (s : LibvlcState) (ctor : Option Nat)
    (hc : (intf_GetPlaylist ctor s).fst = none) :
    (pl_Get ctor s).fst = PlOutcome.aborted := by
  simp [pl_Get, hc]

/-- Witness for C9: fresh state, constructor returns no value. -/
theorem c9_witness : (pl_Get none initialState).fst = PlOutcome.aborted :=
  c9_plget_aborts initialState none rfl

/-- C10: when the constructor fails on first demand, the stored
reference stays unset, the failure is not latched: a second call
invokes the constructor again and can succeed. -/
theorem c10_playlist_failure_not_latched (s : LibvlcState) (p : Nat)
    (h : s.playlist = none) :
    (intf_GetPlaylist none s).fst = none ∧
    (intf_GetPlaylist none s).snd.fst.playlist = none ∧
    Event.playlistCreate ∈ (intf_GetPlaylist none s).snd.snd ∧
    (intf_GetPlaylist (some p) (intf_GetPlaylist none s).snd.fst).fst = some p ∧
    (intf_GetPlaylist (some p)
        (intf_GetPlaylist none s).snd.fst).snd.fst.playlist = some p ∧
    Event.playlistCreate ∈
      (intf_GetPlaylist (some p) (intf_GetPlaylist none s).snd.fst).snd.snd := by
  simp [intf_GetPlaylist, h]

/-- Witness for C10 from a fresh state with constructor value 7 on the
second call. -/
theorem c10_witness :
    (intf_GetPlaylist none initialState).fst = none ∧
    (intf_GetPlaylist none initialState).snd.fst.playlist = none ∧
    Event.playlistCreate ∈ (intf_GetPlaylist none initialState).snd.snd ∧
    (intf_GetPlaylist (some 7)
        (intf_GetPlaylist none initialState).snd.fst).fst = some 7 ∧
    (intf_GetPlaylist (some 7)
        (intf_GetPlaylist none initialState).snd.fst).snd.fst.playlist = some 7 ∧
    Event.playlistCreate ∈
      (intf_GetPlaylist (some 7) (intf_GetPlaylist none initialState).snd.fst).snd.snd :=
  c10_playlist_failure_not_latched initialState 7 rfl

/-- C2 counterexample: in an environment where no module resolves,
setting intf-add to "bogus,none" makes the triggered intf_Create fail,
and AddIntfCallback returns that error (-1, VLC_EGENERIC) instead of
reporting success (0): the claim that the handler always reports
success is false. -/
theorem c2_counterexample :
    (intf_Create envNoModule initialState ("bogus,none")).fst =
      Except.error VlcErr.EGENERIC ∧
    (AddIntfCallback envNoModule initialState ("bogus,none")).fst = -1 ∧
    ¬ (AddIntfCallback envNoModule initialState ("bogus,none")).fst = 0 := by
  refine ⟨rfl, rfl, by decide⟩

/-- C2 amended: the selection-event handler calls create() with the
exact selector string it was set to, keeps create()'s resulting state,
logs a diagnostic when creation failed, and returns create()'s status
code — propagating the creation error instead of always reporting
success. -/
theorem c2_callback_propagates_error (env : Env) (s : LibvlcState)
    (v : String) :
    (AddIntfCallback env s v).fst = vlcCode (intf_Create env s v).fst ∧
    (AddIntfCallback env s v).snd.fst = (intf_Create env s v).snd.fst ∧
    (AddIntfCallback env s v).snd.snd =
      (intf_Create env s v).snd.snd ++
      (if vlcCode (intf_Create env s v).fst = 0 then []
       else [Event.msgErrInitFailed v]) := by
  by_cases h : vlcCode (intf_Create env s v).fst = 0 <;>
    simp [AddIntfCallback, h]

/-- Witness for C2 amended at a concrete failing selector. -/
theorem c2_witness :
    (AddIntfCallback envNoModule initialState ("bogus,none")).fst =
      vlcCode (intf_Create envNoModule initialState ("bogus,none")).fst ∧
    (AddIntfCallback envNoModule initialState ("bogus,none")).snd.fst =
      (intf_Create envNoModule initialState ("bogus,none")).snd.fst ∧
    (AddIntfCallback envNoModule initialState ("bogus,none")).snd.snd =
      (intf_Create envNoModule initialState ("bogus,none")).snd.snd ++
      (if vlcCode (intf_Create envNoModule initialState ("bogus,none")).fst = 0
       then [] else [Event.msgErrInitFailed ("bogus,none")]) :=
  c2_callback_propagates_error envNoModule initialState ("bogus,none")

/-- C6 counterexample: in a Windows-like environment without an isatty
notion and with non-interactive standard input, the console choice
"rc,none" is still added to the intf-add choice list, because the
source's preprocessor guard removes only the if-condition, leaving the
add-choice block unconditional; the claim that it is never added on
such platforms is false. -/
theorem c6_counterexample :
    envWinNoTty.isWin32 = true ∧ envWinNoTty.hasIsatty = false ∧
    envWinNoTty.isatty0 = false ∧
    (("rc,none"), ("Console")) ∈ intfChoices envWinNoTty := by decide

/-- C6 amended: the console choice is added unless the platform is
non-Windows with isatty available and standard input is not an
interactive terminal; equivalently, on non-Windows isatty platforms it
is added iff stdin is a terminal, and on Windows or isatty-less
platforms it is always added.  The other four choices are added
unconditionally. -/
theorem c6_console_choice (env : Env) :
    ((("rc,none"), ("Console")) ∈ intfChoices env ↔
      (env.isWin32 = false ∧ env.hasIsatty = true → env.isatty0 = true)) ∧
    (("telnet,none"), ("Telnet")) ∈ intfChoices env ∧
    (("http,none"), ("Web")) ∈ intfChoices env ∧
    (("logger,none"), ("Debug logging")) ∈ intfChoices env ∧
    (("gestures,none"), ("Mouse Gestures")) ∈ intfChoices env := by
  rcases env with ⟨w, hi, tty, al, cp, rs⟩
  cases w <;> cases hi <;> cases tty <;>
    simp [intfChoices, consoleChoiceAdded]

/-- Witness for C6 amended at a concrete interactive environment. -/
theorem c6_witness :
    ((("rc,none"), ("Console")) ∈ intfChoices envOk ↔
      (envOk.isWin32 = false ∧ envOk.hasIsatty = true → envOk.isatty0 = true)) ∧
    (("telnet,none"), ("Telnet")) ∈ intfChoices envOk ∧
    (("http,none"), ("Web")) ∈ intfChoices envOk ∧
    (("logger,none"), ("Debug logging")) ∈ intfChoices envOk ∧
    (("gestures,none"), ("Mouse Gestures")) ∈ intfChoices envOk :=
  c6_console_choice envOk

/-- C7: the intf-add choice list equals the spec's five-entry canonical
table filtered by its availability column; the four non-console entries
are always exposed; and a successful create() stores in the new handle
the choice list computed at setup time — the filtering is evaluated
once, when the handle is set up, and the stored list is never
recomputed. -/
theorem c7_canonical_table (env : Env) (s : LibvlcState) (chain : String)
    (m : Nat) (hA : env.allocOk = true)
    (hm : env.resolve (env.chainParse chain).fst = some m) :
    intfChoices env = specExposedChoices env ∧
    (("telnet,none"), ("Telnet")) ∈ specExposedChoices env ∧
    (("http,none"), ("Web")) ∈ specExposedChoices env ∧
    (("logger,none"), ("Debug logging")) ∈ specExposedChoices env ∧
    (("gestures,none"), ("Mouse Gestures")) ∈ specExposedChoices env ∧
    (intf_Create env s chain).snd.fst.intfList.map Handle.choices =
      intfChoices env :: s.intfList.map Handle.choices := by
  have htab : intfChoices env = specExposedChoices env := by
    cases h : consoleChoiceAdded env <;>
      simp [intfChoices, specExposedChoices, specChoiceTable, h]
  refine ⟨htab, ?_, ?_, ?_, ?_, ?_⟩
  · rw [← htab]; cases h : consoleChoiceAdded env <;> simp [intfChoices, h]
  · rw [← htab]; cases h : consoleChoiceAdded env <;> simp [intfChoices, h]
  · rw [← htab]; cases h : consoleChoiceAdded env <;> simp [intfChoices, h]
  · rw [← htab]; cases h : consoleChoiceAdded env <;> simp [intfChoices, h]
  · rw [intf_Create_resolved env s chain m hA hm]
    simp [mkHandle]

/-- Witness for C7 at a concrete interactive environment and the
selector "http,none". -/
theorem c7_witness :
    intfChoices envOk = specExposedChoices envOk ∧
    (("telnet,none"), ("Telnet")) ∈ specExposedChoices envOk ∧
    (("http,none"), ("Web")) ∈ specExposedChoices envOk ∧
    (("logger,none"), ("Debug logging")) ∈ specExposedChoices envOk ∧
    (("gestures,none"), ("Mouse Gestures")) ∈ specExposedChoices envOk ∧
    (intf_Create envOk initialState ("http,none")).snd.fst.intfList.map
        Handle.choices =
      intfChoices envOk :: initialState.intfList.map Handle.choices :=
  c7_canonical_table envOk initialState ("http,none") 1 rfl rfl

/-- Helper: running createMany with every resolution succeeding appends
the reversed list of new handles at the head and advances the allocator
by the number of calls. -/
theorem createMany_spec (env : Env) (chains : List String) :
    ∀ s : LibvlcState, env.allocOk = true →
    (∀ c ∈ chains, (env.resolve (env.chainParse c).fst).isSome = true) →
    createMany env s chains =
      { s with
          intfList := (mkHandles env s.nextId chains).reverse ++ s.intfList,
          nextId := s.nextId + chains.length } := by
  induction chains with
  | nil => intro s hA hR; simp [createMany, mkHandles]
  | cons c cs ih =>
      intro s hA hR
      obtain ⟨m, hm⟩ :=
        Option.isSome_iff_exists.mp (hR c (by simp))
      rw [createMany, intf_Create_resolved env s c m hA hm,
          ih _ hA (fun d hd => hR d (by simp [hd]))]
      simp only [mkHandles, List.reverse_cons, List.append_assoc,
        List.singleton_append, List.length_cons]
      have hn : s.nextId + 1 + cs.length = s.nextId + (cs.length + 1) := by
        omega
      rw [hn]

/-- Helper: the number of handles described equals the number of
chains. -/
theorem mkHandles_length (env : Env) (chains : List String) :
    ∀ n, (mkHandles env n chains).length = chains.length := by
  induction chains with
  | nil => intro n; rfl
  | cons c cs ih => intro n; simp [mkHandles, ih]

/-- C3: after any finite sequence of successful create() calls, the
registry holds the new handles prepended head-first, so traversal order
is exactly reverse creation order, and its length equals the previous
length plus the number of successful calls. -/
theorem c3_registry_reverse_creation_order (env : Env) (s : LibvlcState)
    (chains : List String) (hA : env.allocOk = true)
    (hR : ∀ c ∈ chains, (env.resolve (env.chainParse c).fst).isSome = true) :
    (createMany env s chains).intfList =
      (mkHandles env s.nextId chains).reverse ++ s.intfList ∧
    (createMany env s chains).intfList.length =
      chains.length + s.intfList.length := by
  rw [createMany_spec env chains s hA hR]
  refine ⟨rfl, ?_⟩
  simp [mkHandles_length]

/-- Witness for C3: three successful creates from a fresh state. -/
theorem c3_witness :
    (createMany envOk initialState [("a"), ("b"), ("c")]).intfList =
      (mkHandles envOk initialState.nextId [("a"), ("b"), ("c")]).reverse ++
        initialState.intfList ∧
    (createMany envOk initialState [("a"), ("b"), ("c")]).intfList.length =
      [("a"), ("b"), ("c")].length + initialState.intfList.length :=
  c3_registry_reverse_creation_order envOk initialState [("a"), ("b"), ("c")]
    rfl (by decide)

/-- Helper: once the playlist reference is set, every further
intf_GetPlaylist call returns exactly it, leaves the state unchanged
and never invokes the constructor. -/
theorem getPlaylistMany_some (ctors : List (Option Nat)) :
    ∀ s p, s.playlist = some p →
    getPlaylistMany s ctors =
      (List.replicate ctors.length (some p), s, []) := by
  induction ctors with
  | nil => intro s p h; simp [getPlaylistMany]
  | cons c cs ih =>
      intro s p h
      simp [getPlaylistMany, intf_GetPlaylist, h, ih s p h,
        List.replicate_succ]

/-- C4: over any sequence of getOrCreatePlaylist calls whose external
constructions succeed, the constructor is invoked at most once, every
call returns the one reference stored at the end, and a non-null stored
reference is never replaced or cleared — neither by further lookups nor
by intf_Create or intf_DestroyAll. -/
theorem c4_playlist_singleton (ctors : List (Option Nat)) (s : LibvlcState)
    (env : Env) (chain : String) (nd : Bool)
    (hS : ∀ c ∈ ctors, c.isSome = true) :
    (getPlaylistMany s ctors).fst =
      List.replicate ctors.length
        (getPlaylistMany s ctors).snd.fst.playlist ∧
    (getPlaylistMany s ctors).snd.snd.count Event.playlistCreate ≤ 1 ∧
    ((getPlaylistMany s ctors).snd.fst.playlist = s.playlist ∨
      s.playlist = none) ∧
    (intf_Create env s chain).snd.fst.playlist = s.playlist ∧
    (intf_DestroyAll nd s).fst.playlist = s.playlist := by
  have key :
      (getPlaylistMany s ctors).fst =
        List.replicate ctors.length
          (getPlaylistMany s ctors).snd.fst.playlist ∧
      (getPlaylistMany s ctors).snd.snd.count Event.playlistCreate ≤ 1 ∧
      ((getPlaylistMany s ctors).snd.fst.playlist = s.playlist ∨
        s.playlist = none) := by
    rcases h : s.playlist with _ | p
    · rcases ctors with _ | ⟨c, cs⟩
      · simp [getPlaylistMany, h]
      · obtain ⟨p, hp⟩ := Option.isSome_iff_exists.mp (hS c (by simp))
        subst hp
        simp [getPlaylistMany, intf_GetPlaylist, h, List.replicate_succ,
          getPlaylistMany_some cs { s with playlist := some p } p rfl]
    · simp [getPlaylistMany_some ctors s p h, h]
  exact ⟨key.1, key.2.1, key.2.2, intf_Create_playlist env s chain,
    intf_DestroyAll_playlist nd s⟩

/-- Witness for C4: two successful lookups from a fresh state. -/
theorem c4_witness :
    (getPlaylistMany initialState [some 7, some 8]).fst =
      List.replicate [some 7, some 8].length
        (getPlaylistMany initialState [some 7, some 8]).snd.fst.playlist ∧
    (getPlaylistMany initialState [some 7, some 8]).snd.snd.count
        Event.playlistCreate ≤ 1 ∧
    ((getPlaylistMany initialState [some 7, some 8]).snd.fst.playlist =
        initialState.playlist ∨ initialState.playlist = none) ∧
    (intf_Create envOk initialState ("a")).snd.fst.playlist =
      initialState.playlist ∧
    (intf_DestroyAll true initialState).fst.playlist =
      initialState.playlist :=
  c4_playlist_singleton [some 7, some 8] initialState envOk ("a") true
    (by decide)

/-- Helper: the teardown loop emits, for each handle in traversal
order, exactly the triple stop / chain-destroy / release. -/
theorem destroyLoop_flatMap (l : List Handle) :
    destroyLoop l =
      l.flatMap (fun g =>
        [Event.unneed g.hid, Event.chainDestroy g.hid,
         Event.release g.hid]) := by
  induction l with
  | nil => rfl
  | cons h t ih => simp [destroyLoop, ih]

/-- Helper: occurrences of a stop event in the teardown trace count the
handles with that id. -/
theorem destroyLoop_count_unneed (l : List Handle) (i : Nat) :
    (destroyLoop l).count (Event.unneed i) = (l.map Handle.hid).count i := by
  induction l with
  | nil => rfl
  | cons h t ih => simp [destroyLoop, List.count_cons, ih]

/-- Helper: occurrences of a chain-destroy event in the teardown trace
count the handles with that id. -/
theorem destroyLoop_count_chainDestroy (l : List Handle) (i : Nat) :
    (destroyLoop l).count (Event.chainDestroy i) =
      (l.map Handle.hid).count i := by
  induction l with
  | nil => rfl
  | cons h t ih => simp [destroyLoop, List.count_cons, ih]

/-- Helper: occurrences of a release event in the teardown trace count
the handles with that id. -/
theorem destroyLoop_count_release (l : List Handle) (i : Nat) :
    (destroyLoop l).count (Event.release i) = (l.map Handle.hid).count i := by
  induction l with
  | nil => rfl
  | cons h t ih => simp [destroyLoop, List.count_cons, ih]

/-- Helper: handle ids produced by successive successful creates are
consecutive. -/
theorem mkHandles_map_hid (env : Env) (chains : List String) :
    ∀ n, (mkHandles env n chains).map Handle.hid =
      List.range' n chains.length := by
  induction chains with
  | nil => intro n; rfl
  | cons c cs ih =>
      intro n
      simp [mkHandles, mkHandle, ih, List.range'_succ]

/-- Helper: the registry ids after successful creates from a fresh
state are the reversed consecutive range. -/
theorem regAfter_map_hid (env : Env) (chains : List String)
    (hA : env.allocOk = true)
    (hR : ∀ c ∈ chains, (env.resolve (env.chainParse c).fst).isSome = true) :
    (regAfter env chains).map Handle.hid =
      (List.range' 0 chains.length).reverse := by
  unfold regAfter
  rw [createMany_spec env chains initialState hA hR]
  simp [initialState, List.map_reverse, mkHandles_map_hid]

/-- Helper: each registered handle id occurs exactly once among the
registry ids. -/
theorem regAfter_hid_count (env : Env) (chains : List String)
    (hA : env.allocOk = true)
    (hR : ∀ c ∈ chains, (env.resolve (env.chainParse c).fst).isSome = true)
    (h : Handle) (hh : h ∈ regAfter env chains) :
    ((regAfter env chains).map Handle.hid).count h.hid = 1 := by
  have hm : h.hid ∈ (regAfter env chains).map Handle.hid :=
    List.mem_map_of_mem Handle.hid hh
  rw [regAfter_map_hid env chains hA hR] at hm
  rw [List.mem_reverse] at hm
  rw [regAfter_map_hid env chains hA hR, List.count_reverse]
  exact List.count_eq_one_of_mem (List.nodup_range' 0 chains.length) hm

/-- C5: after N successful create() calls from a fresh state,
destroyAll() emits for each of the N registered handles — in traversal
(reverse-creation) order — its stop, chain-destroy and release, and
each of those exactly once per handle; destroyAll() on the empty
registry emits nothing and leaves the registry empty. -/
theorem c5_destroy_all_exactly_once (env : Env) (chains : List String)
    (nd : Bool) (h : Handle) (hA : env.allocOk = true)
    (hR : ∀ c ∈ chains, (env.resolve (env.chainParse c).fst).isSome = true)
    (hh : h ∈ regAfter env chains) :
    (intf_DestroyAll nd (createMany env initialState chains)).snd =
      (regAfter env chains).flatMap
        (fun g => [Event.unneed g.hid, Event.chainDestroy g.hid,
                   Event.release g.hid]) ∧
    (regAfter env chains).length = chains.length ∧
    (intf_DestroyAll nd (createMany env initialState chains)).snd.count
        (Event.unneed h.hid) = 1 ∧
    (intf_DestroyAll nd (createMany env initialState chains)).snd.count
        (Event.chainDestroy h.hid) = 1 ∧
    (intf_DestroyAll nd (createMany env initialState chains)).snd.count
        (Event.release h.hid) = 1 ∧
    (intf_DestroyAll nd initialState).snd = [] ∧
    (intf_DestroyAll nd initialState).fst.intfList = [] := by
  have hev :
      (intf_DestroyAll nd (createMany env initialState chains)).snd =
        destroyLoop (regAfter env chains) := rfl
  have hlen : (regAfter env chains).length = chains.length := by
    have hc := congrArg List.length (regAfter_map_hid env chains hA hR)
    simpa using hc
  refine ⟨?_, hlen, ?_, ?_, ?_, rfl, ?_⟩
  · rw [hev, destroyLoop_flatMap]
  · rw [hev, destroyLoop_count_unneed]
    exact regAfter_hid_count env chains hA hR h hh
  · rw [hev, destroyLoop_count_chainDestroy]
    exact regAfter_hid_count env chains hA hR h hh
  · rw [hev, destroyLoop_count_release]
    exact regAfter_hid_count env chains hA hR h hh
  · cases nd <;> simp [intf_DestroyAll, initialState]

/-- Witness for C5: two successful creates, then teardown, checked on
the first-created handle. -/
theorem c5_witness :
    (intf_DestroyAll true (createMany envOk initialState [("a"), ("b")])).snd =
      (regAfter envOk [("a"), ("b")]).flatMap
        (fun g => [Event.unneed g.hid, Event.chainDestroy g.hid,
                   Event.release g.hid]) ∧
    (regAfter envOk [("a"), ("b")]).length = [("a"), ("b")].length ∧
    (intf_DestroyAll true (createMany envOk initialState [("a"), ("b")])).snd.count
        (Event.unneed (mkHandle envOk 0 ("a")).hid) = 1 ∧
    (intf_DestroyAll true (createMany envOk initialState [("a"), ("b")])).snd.count
        (Event.chainDestroy (mkHandle envOk 0 ("a")).hid) = 1 ∧
    (intf_DestroyAll true (createMany envOk initialState [("a"), ("b")])).snd.count
        (Event.release (mkHandle envOk 0 ("a")).hid) = 1 ∧
    (intf_DestroyAll true initialState).snd = [] ∧
    (intf_DestroyAll true initialState).fst.intfList = [] :=
  c5_destroy_all_exactly_once envOk [("a"), ("b")] true
    (mkHandle envOk 0 ("a")) rfl (by decide) (by decide)
